import Mathlib

/-!
# Verification of the Kohli AI chat core (`src/index.tsx`)

This file shallowly embeds the submission handler `handleSendMessage` of the
single-page chat application, together with its view-model state (message
list, input draft, loading flag), and proves the specification's claims
about it.

The JavaScript string primitives used by the handler (`toLowerCase`,
`startsWith`, `substring`, `trim`, `length`) are modelled explicitly on the
character-list representation of `String`, matching their per-code-unit
semantics in the source.  The generative-AI backend is an external
collaborator; its possible behaviours on a single submission (image success,
image failure, a finite fragment stream, stream failure before or in the
middle of delivery) are a parameter `Backend` of the handler.

The handler is embedded as a function producing the ordered list of state
snapshots, one after every state mutation the source performs
(`setMessages`, `setInput`, `setIsLoading`), plus the list of issued
image-generation requests.
-/

/-- JavaScript `String.prototype.toLowerCase`, modelled per character
(`input.toLowerCase()` in the source). -/
def jsToLowerCase (s : String) : String := ⟨s.data.map Char.toLower⟩

/-- JavaScript `String.prototype.startsWith` (`lowercasedInput.startsWith(...)`
in the source): a plain prefix test on the code units. -/
def jsStartsWith (s pre : String) : Bool := pre.data.isPrefixOf s.data

/-- JavaScript `String.prototype.substring(n)` (`currentInput.substring(...)`
in the source): drop the first `n` code units. -/
def jsSubstringFrom (s : String) (n : Nat) : String := ⟨s.data.drop n⟩

/-- JavaScript `String.prototype.length` (`imageCommand.length` in the source). -/
def jsLength (s : String) : Nat := s.data.length

/-- JavaScript `String.prototype.trim` (`input.trim()` in the source):
strip whitespace from both ends. -/
def jsTrim (s : String) : String :=
  ⟨((s.data.dropWhile Char.isWhitespace).reverse.dropWhile Char.isWhitespace).reverse⟩

/-- The `sender` field of a message: `'user' | 'ai'`. -/
inductive Sender where
  | user
  | ai
deriving DecidableEq, Repr

/-- The `Message` interface of the source: text, sender, optional image URL. -/
structure Message where
  text : String
  sender : Sender
  imageUrl : Option String := none
deriving DecidableEq, Repr

/-- The view-model state of the `App` component: the transcript
(`messages`), the input draft (`input`) and the loading flag (`isLoading`). -/
structure AppState where
  messages : List Message
  input : String
  isLoading : Bool
deriving DecidableEq, Repr

/-- The greeting text of the initial assistant message. -/
def greetingText : String :=
  "Hello! I am Kohli AI, your smart and friendly assistant for everything related to industrial spindle technology. How can I assist you today?"

/-- The initial state of the `App` component: one greeting message from the
assistant, empty draft, not loading. -/
def initialState : AppState :=
  { messages := [{ text := greetingText, sender := Sender.ai }],
    input := "",
    isLoading := false }

/-- The first image-command prefix literal of the source. -/
def imageCommand : String := "generate image of "

/-- The second image-command prefix literal of the source. -/
def imageCommandAlt : String := "generate an image of "

/-- Prompt extraction, lines 57-66 of the source: lower-case the input, test
the two literal prefixes, and on a match take the remainder of the original
(un-lowercased) input; otherwise the prompt stays `""`. -/
def extractPrompt (currentInput : String) : String :=
  let lowercasedInput := jsToLowerCase currentInput
  if jsStartsWith lowercasedInput imageCommand = true then
    jsSubstringFrom currentInput (jsLength imageCommand)
  else if jsStartsWith lowercasedInput imageCommandAlt = true then
    jsSubstringFrom currentInput (jsLength imageCommandAlt)
  else ""

/-- The disjunction of the two prefix tests of lines 62-64: whether the
input matches either image-command prefix. -/
def matchesImageCommand (input : String) : Bool :=
  jsStartsWith (jsToLowerCase input) imageCommand ||
    jsStartsWith (jsToLowerCase input) imageCommandAlt

/-- One call to `ai.current.models.generateImages`, with the fields the
source passes. -/
structure ImageRequest where
  model : String
  prompt : String
  numberOfImages : Nat
  outputMimeType : String
deriving DecidableEq, Repr

/-- Outcome of an image-generation call: a successful response carrying the
base64 image bytes of its single generated image, or a thrown error. -/
inductive ImageOutcome where
  | ok (imageBytes : String)
  | err
deriving DecidableEq, Repr

/-- Outcome of a streaming chat call: the full finite fragment sequence on
success; a throw before the stream is obtained (including the
`"Chat not initialized."` throw); or a throw during iteration after some
fragments were already delivered. -/
inductive StreamOutcome where
  | ok (chunks : List String)
  | errBefore
  | errMid (chunks : List String)
deriving DecidableEq, Repr

/-- The backend's behaviour for one submission, covering whichever channel
the handler uses. -/
structure Backend where
  image : ImageOutcome
  stream : StreamOutcome
deriving DecidableEq, Repr

/-- The fixed wrapper template around the extracted prompt (line 71). -/
def wrapPrompt (prompt : String) : String :=
  "A high-quality, detailed image of " ++ prompt ++ " in an industrial setting."

/-- The confirmation text of a successful image reply (line 78). -/
def imageConfirmText (prompt : String) : String :=
  "Here is the image of \"" ++ prompt ++ "\" you requested."

/-- The data URI built from the returned base64 image bytes (line 76). -/
def dataUri (bytes : String) : String := "data:image/png;base64," ++ bytes

/-- The fixed apology text of the catch block (line 103). -/
def errorText : String := "Sorry, I encountered an error. Please try again."

/-- The apology message appended by the catch block. -/
def errorMessage : Message := { text := errorText, sender := Sender.ai }

/-- `newMessages[newMessages.length - 1].text = fullResponse` (line 96):
replace the text of the last message, if any. -/
def setLastText : List Message → String → List Message
  | [], _ => []
  | [m], t => [{ m with text := t }]
  | m :: m' :: rest, t => m :: setLastText (m' :: rest) t

/-- The `for await` loop of lines 92-99: starting from state `s` with the
accumulated response `acc`, consume each fragment in delivery order,
append it to the accumulator and overwrite the last message's text with the
accumulator; the result is the list of state snapshots, one per fragment. -/
def streamSnapshots (s : AppState) (acc : String) : List String → List AppState
  | [] => []
  | c :: cs =>
    let acc' := acc ++ c
    let s' := { s with messages := setLastText s.messages acc' }
    s' :: streamSnapshots s' acc' cs

/-- `fullResponse` after the whole stream: the fragments concatenated in
delivery order. -/
def joinChunks : List String → String
  | [] => ""
  | c :: cs => c ++ joinChunks cs

/-- The result of one invocation of `handleSendMessage`: the ordered list of
state snapshots after each state mutation, and the image requests issued. -/
structure SubmitResult where
  trace : List AppState
  imageRequests : List ImageRequest
deriving DecidableEq, Repr

/-- The state after the invocation settles: the last snapshot, or the
starting state when nothing was mutated. -/
def finalState (s : AppState) (r : SubmitResult) : AppState :=
  r.trace.getLastD s

/-- The submission handler `handleSendMessage`, lines 46-108 of the source,
with backend behaviour `b`, invoked on state `s`.

Guard (line 48): a blank-after-trim draft or an in-flight request returns at
once with no mutation.  Otherwise the user message is appended, the draft is
cleared and the loading flag is set; the prompt extracted by
`extractPrompt` routes to the image path when non-empty (the truthiness
test `if (prompt)` of line 68) and to the streaming path otherwise; any
backend failure appends the fixed apology message; the `finally` block
clears the loading flag. -/
def submit (b : Backend) (s : AppState) : SubmitResult :=
  if jsTrim s.input = "" ∨ s.isLoading = true then
    { trace := [], imageRequests := [] }
  else
    let userMessage : Message := { text := s.input, sender := Sender.user }
    let s1 := { s with messages := s.messages ++ [userMessage] }
    let currentInput := s.input
    let s2 := { s1 with input := "" }
    let s3 := { s2 with isLoading := true }
    let prompt := extractPrompt currentInput
    if prompt ≠ "" then
      let req : ImageRequest :=
        { model := "imagen-3.0-generate-002",
          prompt := wrapPrompt prompt,
          numberOfImages := 1,
          outputMimeType := "image/png" }
      match b.image with
      | ImageOutcome.ok bytes =>
        let aiMessage : Message :=
          { text := imageConfirmText prompt,
            sender := Sender.ai,
            imageUrl := some (dataUri bytes) }
        let s4 := { s3 with messages := s3.messages ++ [aiMessage] }
        let s5 := { s4 with isLoading := false }
        { trace := [s1, s2, s3, s4, s5], imageRequests := [req] }
      | ImageOutcome.err =>
        let s4 := { s3 with messages := s3.messages ++ [errorMessage] }
        let s5 := { s4 with isLoading := false }
        { trace := [s1, s2, s3, s4, s5], imageRequests := [req] }
    else
      match b.stream with
      | StreamOutcome.errBefore =>
        let s4 := { s3 with messages := s3.messages ++ [errorMessage] }
        let s5 := { s4 with isLoading := false }
        { trace := [s1, s2, s3, s4, s5], imageRequests := [] }
      | StreamOutcome.ok chunks =>
        let s4 := { s3 with messages := s3.messages ++ [{ text := "", sender := Sender.ai }] }
        let snaps := streamSnapshots s4 "" chunks
        let sLast := snaps.getLastD s4
        let sEnd := { sLast with isLoading := false }
        { trace := [s1, s2, s3, s4] ++ snaps ++ [sEnd], imageRequests := [] }
      | StreamOutcome.errMid chunks =>
        let s4 := { s3 with messages := s3.messages ++ [{ text := "", sender := Sender.ai }] }
        let snaps := streamSnapshots s4 "" chunks
        let sLast := snaps.getLastD s4
        let s5 := { sLast with messages := sLast.messages ++ [errorMessage] }
        let s6 := { s5 with isLoading := false }
        { trace := [s1, s2, s3, s4] ++ snaps ++ [s5, s6], imageRequests := [] }

/-! ## Helper lemmas -/

theorem setLastText_append (ms : List Message) (m : Message) (t : String) :
    setLastText (ms ++ [m]) t = ms ++ [{ m with text := t }] := by
  induction ms with
  | nil => rfl
  | cons a as ih =>
    cases as with
    | nil => rfl
    | cons b bs => simpa [setLastText] using ih

theorem streamSnapshots_getLastD (cs : List String) :
    ∀ (s : AppState) (base : List Message) (m : Message) (acc : String),
      s.messages = base ++ [m] → m.text = acc →
      (streamSnapshots s acc cs).getLastD s =
        { s with messages := base ++ [{ m with text := acc ++ joinChunks cs }] } := by
  induction cs with
  | nil =>
    intro s base m acc hs ht
    obtain ⟨ms, inp, ld⟩ := s
    obtain ⟨mt, msd, miu⟩ := m
    simp only at hs ht
    simp [streamSnapshots, joinChunks, hs, ht, String.append_empty]
  | cons c cs ih =>
    intro s base m acc hs ht
    simp only [streamSnapshots, List.getLastD_cons]
    rw [hs, setLastText_append]
    have h2 := ih { s with messages := base ++ [{ m with text := acc ++ c }] }
      base { m with text := acc ++ c } (acc ++ c) rfl rfl
    rw [h2]
    simp [joinChunks, String.append_assoc]

theorem streamSnapshots_map_isLoading (cs : List String) :
    ∀ (s : AppState) (acc : String),
      (streamSnapshots s acc cs).map AppState.isLoading =
        List.replicate cs.length s.isLoading := by
  induction cs with
  | nil => intro s acc; rfl
  | cons c cs ih =>
    intro s acc
    simp only [streamSnapshots, List.map_cons, List.length_cons, List.replicate]
    exact congrArg _ (ih _ _)

theorem getLastD_append_singleton (l : List AppState) (a d : AppState) :
    (l ++ [a]).getLastD d = a := by
  simp [List.getLastD_concat]

/-! ## Claim theorems -/

/-- C10: before any submission, the initial transcript holds exactly one
assistant message, whose text is the fixed greeting and which has no image
URL, and the loading flag is initially false. -/
theorem C10_initial_state :
    initialState.messages =
      [{ text := "Hello! I am Kohli AI, your smart and friendly assistant for everything related to industrial spindle technology. How can I assist you today?",
         sender := Sender.ai, imageUrl := none }] ∧
    initialState.messages.length = 1 ∧
    initialState.isLoading = false :=
  ⟨rfl, rfl, rfl⟩

/-- C5: a submission attempt whose input is empty or whitespace-only after
trimming, or made while the loading flag is true, performs no state
mutation at all: the transcript is unchanged and the loading flag keeps its
value. -/
theorem C5_blocked_submission_no_mutation (b : Backend) (s : AppState)
    (h : jsTrim s.input = "" ∨ s.isLoading = true) :
    submit b s = { trace := [], imageRequests := [] } ∧
    finalState s (submit b s) = s := by
  have hs : submit b s = { trace := [], imageRequests := [] } := by
    unfold submit
    rw [if_pos h]
  exact ⟨hs, by rw [hs]; rfl⟩

/-- C5 witness: a whitespace-only input on a quiescent state mutates
nothing, and neither does any submission while loading. -/
theorem C5_blocked_submission_no_mutation_witness :
    (submit { image := ImageOutcome.err, stream := StreamOutcome.errBefore }
        { messages := [], input := "   ", isLoading := false } =
      { trace := [], imageRequests := [] }) ∧
    (submit { image := ImageOutcome.ok "B", stream := StreamOutcome.ok ["x"] }
        { messages := [], input := "hello", isLoading := true } =
      { trace := [], imageRequests := [] }) :=
  ⟨(C5_blocked_submission_no_mutation _ _ (Or.inl (by decide))).1,
   (C5_blocked_submission_no_mutation _ _ (Or.inr rfl)).1⟩

/-- C3 counterexample: the input consisting of exactly the first
image-command prefix is classified as an image command (its lower-cased
form starts with that prefix) with extracted prompt `""`, yet the
submission issues no image request: it takes the conversational path. -/
theorem C3_counterexample :
    matchesImageCommand "generate image of " = true ∧
    extractPrompt "generate image of " = "" ∧
    (submit { image := ImageOutcome.ok "B", stream := StreamOutcome.ok ["x"] }
        { messages := [], input := "generate image of ", isLoading := false }).imageRequests =
      [] := by
  decide

/-- C3 (amended): for every unblocked submission whose extracted prompt is
non-empty, exactly one image-synthesis request is issued, with the
request's prompt equal to the fixed wrapper template around the extracted
prompt, requesting exactly one output image with PNG output encoding. -/
theorem C3_image_request_shape (b : Backend) (s : AppState)
    (hne : jsTrim s.input ≠ "") (hld : s.isLoading = false)
    (hp : extractPrompt s.input ≠ "") :
    (submit b s).imageRequests =
      [{ model := "imagen-3.0-generate-002",
         prompt := "A high-quality, detailed image of " ++ extractPrompt s.input ++
           " in an industrial setting.",
         numberOfImages := 1,
         outputMimeType := "image/png" }] := by
  have hg : ¬(jsTrim s.input = "" ∨ s.isLoading = true) := by simp [hne, hld]
  simp only [submit]
  rw [if_neg hg, if_pos hp]
  cases hb : b.image <;> rfl

/-- C3 witness: the request issued for `"Generate an image of a lathe"`. -/
theorem C3_image_request_shape_witness :
    (submit { image := ImageOutcome.ok "B", stream := StreamOutcome.errBefore }
        { messages := [], input := "Generate an image of a lathe", isLoading := false }).imageRequests =
      [{ model := "imagen-3.0-generate-002",
         prompt := "A high-quality, detailed image of a lathe in an industrial setting.",
         numberOfImages := 1,
         outputMimeType := "image/png" }] :=
  (C3_image_request_shape
    { image := ImageOutcome.ok "B", stream := StreamOutcome.errBefore }
    { messages := [], input := "Generate an image of a lathe", isLoading := false }
    (by decide) rfl (by decide)).trans (by decide)

/-- C4 counterexample: for `"Generate image of a CNC spindle housing"` the
single request issued carries the fixed wrapper template, not the bare
extracted prompt; and for `"generate image of "`, which matches the prefix
with empty remainder, no request is issued at all. -/
theorem C4_counterexample :
    ((submit { image := ImageOutcome.ok "B", stream := StreamOutcome.errBefore }
        { messages := [], input := "Generate image of a CNC spindle housing",
          isLoading := false }).imageRequests.map ImageRequest.prompt ≠
      ["a CNC spindle housing"]) ∧
    (submit { image := ImageOutcome.ok "B", stream := StreamOutcome.ok [] }
        { messages := [], input := "generate image of ", isLoading := false }).imageRequests =
      [] := by
  decide

/-- C4 (amended): for every unblocked submission matching an image-command
prefix with non-empty extracted prompt `X`, exactly one image request is
issued whose prompt embeds `X` verbatim in the fixed wrapper template, and
on success exactly one assistant message is appended whose text is exactly
`Here is the image of "X" you requested.` and whose image URL is
`data:image/png;base64,` followed by the returned image bytes. -/
theorem C4_image_success (b : Backend) (s : AppState) (bytes : String)
    (hne : jsTrim s.input ≠ "") (hld : s.isLoading = false)
    (hp : extractPrompt s.input ≠ "")
    (hb : b.image = ImageOutcome.ok bytes) :
    (submit b s).imageRequests.map ImageRequest.prompt =
      ["A high-quality, detailed image of " ++ extractPrompt s.input ++
        " in an industrial setting."] ∧
    finalState s (submit b s) =
      { messages := s.messages ++
          [{ text := s.input, sender := Sender.user },
           { text := "Here is the image of \"" ++ extractPrompt s.input ++ "\" you requested.",
             sender := Sender.ai,
             imageUrl := some ("data:image/png;base64," ++ bytes) }],
        input := "", isLoading := false } := by
  have hg : ¬(jsTrim s.input = "" ∨ s.isLoading = true) := by simp [hne, hld]
  have hsub : submit b s =
      { trace :=
          [{ s with
              messages := s.messages ++ [{ text := s.input, sender := Sender.user }] },
           { s with
              messages := s.messages ++ [{ text := s.input, sender := Sender.user }],
              input := "" },
           { s with
              messages := s.messages ++ [{ text := s.input, sender := Sender.user }],
              input := "",
              isLoading := true },
           { s with
              messages := (s.messages ++ [{ text := s.input, sender := Sender.user }]) ++
                [{ text := imageConfirmText (extractPrompt s.input), sender := Sender.ai,
                   imageUrl := some (dataUri bytes) }],
              input := "",
              isLoading := true },
           { s with
              messages := (s.messages ++ [{ text := s.input, sender := Sender.user }]) ++
                [{ text := imageConfirmText (extractPrompt s.input), sender := Sender.ai,
                   imageUrl := some (dataUri bytes) }],
              input := "",
              isLoading := false }],
        imageRequests :=
          [{ model := "imagen-3.0-generate-002",
             prompt := wrapPrompt (extractPrompt s.input),
             numberOfImages := 1,
             outputMimeType := "image/png" }] } := by
    simp only [submit]
    rw [if_neg hg, if_pos hp, hb]
  rw [hsub]
  refine ⟨rfl, ?_⟩
  simp [finalState, imageConfirmText, dataUri, List.append_assoc]

/-- C4 witness: a concrete successful image submission. -/
theorem C4_image_success_witness :
    (submit { image := ImageOutcome.ok "BYTES", stream := StreamOutcome.errBefore }
        { messages := [], input := "generate image of a robot arm",
          isLoading := false }).imageRequests.map ImageRequest.prompt =
      ["A high-quality, detailed image of a robot arm in an industrial setting."] ∧
    finalState { messages := [], input := "generate image of a robot arm", isLoading := false }
      (submit { image := ImageOutcome.ok "BYTES", stream := StreamOutcome.errBefore }
        { messages := [], input := "generate image of a robot arm", isLoading := false }) =
      { messages :=
          [{ text := "generate image of a robot arm", sender := Sender.user },
           { text := "Here is the image of \"a robot arm\" you requested.",
             sender := Sender.ai,
             imageUrl := some "data:image/png;base64,BYTES" }],
        input := "", isLoading := false } := by
  have h := C4_image_success
    { image := ImageOutcome.ok "BYTES", stream := StreamOutcome.errBefore }
    { messages := [], input := "generate image of a robot arm", isLoading := false }
    "BYTES" (by decide) rfl (by decide) rfl
  exact ⟨h.1.trans (by decide), h.2.trans (by decide)⟩

theorem getLastD_append_pair (l : List AppState) (a b d : AppState) :
    (l ++ [a, b]).getLastD d = b := by
  have h : l ++ [a, b] = (l ++ [a]) ++ [b] := by simp
  rw [h, getLastD_append_singleton]

/-- C6: on any backend failure in either path, exactly one assistant
message whose text is exactly the fixed apology string is appended at the
end of the transcript; the already-appended user message and any
partially-streamed assistant text remain in the transcript; and the
submission settles with the loading flag false. -/
theorem C6_failure_apology (b : Backend) (s : AppState) (cs : List String)
    (hne : jsTrim s.input ≠ "") (hld : s.isLoading = false) :
    (extractPrompt s.input ≠ "" → b.image = ImageOutcome.err →
      finalState s (submit b s) =
        { messages := s.messages ++
            [{ text := s.input, sender := Sender.user },
             { text := "Sorry, I encountered an error. Please try again.", sender := Sender.ai }],
          input := "", isLoading := false }) ∧
    (extractPrompt s.input = "" → b.stream = StreamOutcome.errBefore →
      finalState s (submit b s) =
        { messages := s.messages ++
            [{ text := s.input, sender := Sender.user },
             { text := "Sorry, I encountered an error. Please try again.", sender := Sender.ai }],
          input := "", isLoading := false }) ∧
    (extractPrompt s.input = "" → b.stream = StreamOutcome.errMid cs →
      finalState s (submit b s) =
        { messages := s.messages ++
            [{ text := s.input, sender := Sender.user },
             { text := joinChunks cs, sender := Sender.ai },
             { text := "Sorry, I encountered an error. Please try again.", sender := Sender.ai }],
          input := "", isLoading := false }) := by
  have hg : ¬(jsTrim s.input = "" ∨ s.isLoading = true) := by simp [hne, hld]
  refine ⟨?_, ?_, ?_⟩
  · intro hp hb
    simp only [submit]
    rw [if_neg hg, if_pos hp, hb]
    simp [finalState, errorMessage, errorText, List.append_assoc]
  · intro hp hb
    simp only [submit]
    rw [if_neg hg, if_neg (by simp [hp]), hb]
    simp [finalState, errorMessage, errorText, List.append_assoc]
  · intro hp hb
    have hsub : submit b s =
        { trace :=
            [{ s with
                messages := s.messages ++ [{ text := s.input, sender := Sender.user }] },
             { s with
                messages := s.messages ++ [{ text := s.input, sender := Sender.user }],
                input := "" },
             { s with
                messages := s.messages ++ [{ text := s.input, sender := Sender.user }],
                input := "",
                isLoading := true },
             { s with
                messages := (s.messages ++ [{ text := s.input, sender := Sender.user }]) ++
                  [{ text := "", sender := Sender.ai }],
                input := "",
                isLoading := true }] ++
            streamSnapshots
              { s with
                  messages := (s.messages ++ [{ text := s.input, sender := Sender.user }]) ++
                    [{ text := "", sender := Sender.ai }],
                  input := "",
                  isLoading := true } "" cs ++
            [{ ((streamSnapshots
                  { s with
                      messages := (s.messages ++ [{ text := s.input, sender := Sender.user }]) ++
                        [{ text := "", sender := Sender.ai }],
                      input := "",
                      isLoading := true } "" cs).getLastD
                  { s with
                      messages := (s.messages ++ [{ text := s.input, sender := Sender.user }]) ++
                        [{ text := "", sender := Sender.ai }],
                      input := "",
                      isLoading := true }) with
                messages := ((streamSnapshots
                  { s with
                      messages := (s.messages ++ [{ text := s.input, sender := Sender.user }]) ++
                        [{ text := "", sender := Sender.ai }],
                      input := "",
                      isLoading := true } "" cs).getLastD
                  { s with
                      messages := (s.messages ++ [{ text := s.input, sender := Sender.user }]) ++
                        [{ text := "", sender := Sender.ai }],
                      input := "",
                      isLoading := true }).messages ++ [errorMessage] },
             { ((streamSnapshots
                  { s with
                      messages := (s.messages ++ [{ text := s.input, sender := Sender.user }]) ++
                        [{ text := "", sender := Sender.ai }],
                      input := "",
                      isLoading := true } "" cs).getLastD
                  { s with
                      messages := (s.messages ++ [{ text := s.input, sender := Sender.user }]) ++
                        [{ text := "", sender := Sender.ai }],
                      input := "",
                      isLoading := true }) with
                messages := ((streamSnapshots
                  { s with
                      messages := (s.messages ++ [{ text := s.input, sender := Sender.user }]) ++
                        [{ text := "", sender := Sender.ai }],
                      input := "",
                      isLoading := true } "" cs).getLastD
                  { s with
                      messages := (s.messages ++ [{ text := s.input, sender := Sender.user }]) ++
                        [{ text := "", sender := Sender.ai }],
                      input := "",
                      isLoading := true }).messages ++ [errorMessage],
                isLoading := false }],
          imageRequests := [] } := by
      simp only [submit]
      rw [if_neg hg, if_neg (by simp [hp]), hb]
    rw [hsub]
    simp only [finalState]
    rw [streamSnapshots_getLastD cs
      { s with
          messages := (s.messages ++ [{ text := s.input, sender := Sender.user }]) ++
            [{ text := "", sender := Sender.ai }],
          input := "",
          isLoading := true }
      (s.messages ++ [{ text := s.input, sender := Sender.user }])
      { text := "", sender := Sender.ai } "" rfl rfl]
    simp only [List.cons_append, List.nil_append, List.getLastD_cons, getLastD_append_pair]
    simp [errorMessage, errorText, List.append_assoc]

/-- C6 witness: a concrete mid-stream failure after two fragments. -/
theorem C6_failure_apology_witness :
    finalState { messages := [], input := "hi", isLoading := false }
      (submit { image := ImageOutcome.err, stream := StreamOutcome.errMid ["He", "llo"] }
        { messages := [], input := "hi", isLoading := false }) =
      { messages :=
          [{ text := "hi", sender := Sender.user },
           { text := "Hello", sender := Sender.ai },
           { text := "Sorry, I encountered an error. Please try again.", sender := Sender.ai }],
        input := "", isLoading := false } := by
  have h := (C6_failure_apology
    { image := ImageOutcome.err, stream := StreamOutcome.errMid ["He", "llo"] }
    { messages := [], input := "hi", isLoading := false }
    ["He", "llo"] (by decide) rfl).2.2 (by decide) rfl
  exact h.trans (by decide)

theorem streamSnapshots_getLastD_isLoading (cs : List String) :
    ∀ (s : AppState) (acc : String),
      ((streamSnapshots s acc cs).getLastD s).isLoading = s.isLoading := by
  induction cs with
  | nil => intro s acc; rfl
  | cons c cs ih =>
    intro s acc
    simp only [streamSnapshots, List.getLastD_cons]
    rw [ih]

/-- C7: on every unblocked submission the loading flag is raised before any
backend interaction, stays true across every intermediate snapshot until
settlement, and is false again in the settled state, on success and on
failure in either path (the two leading snapshots precede the first
suspension point: they belong to the synchronous prologue that appends the
user message and clears the draft); and a submission started while the
flag is true performs nothing, so no two pending intervals overlap. -/
theorem C7_loading_interval (b : Backend) (s : AppState)
    (hne : jsTrim s.input ≠ "") (hld : s.isLoading = false) :
    (∃ k, 1 ≤ k ∧
      (submit b s).trace.map AppState.isLoading =
        false :: false :: (List.replicate k true ++ [false])) ∧
    (∀ (b' : Backend) (s' : AppState), s'.isLoading = true →
      submit b' s' = { trace := [], imageRequests := [] }) := by
  have hg : ¬(jsTrim s.input = "" ∨ s.isLoading = true) := by simp [hne, hld]
  constructor
  · by_cases hp : extractPrompt s.input ≠ ""
    · refine ⟨2, by omega, ?_⟩
      simp only [submit]
      rw [if_neg hg, if_pos hp]
      cases hb : b.image <;> simp [hld, List.replicate]
    · rw [not_not] at hp
      cases hb : b.stream with
      | ok cs =>
        refine ⟨cs.length + 2, by omega, ?_⟩
        simp only [submit]
        rw [if_neg hg, if_neg (by simp [hp]), hb]
        have hrep : List.replicate (cs.length + 2) true =
            true :: true :: List.replicate cs.length true := rfl
        simp [hrep, hld, streamSnapshots_map_isLoading]
      | errBefore =>
        refine ⟨2, by omega, ?_⟩
        simp only [submit]
        rw [if_neg hg, if_neg (by simp [hp]), hb]
        simp [hld, List.replicate]
      | errMid cs =>
        refine ⟨cs.length + 3, by omega, ?_⟩
        simp only [submit]
        rw [if_neg hg, if_neg (by simp [hp]), hb]
        have hrep : List.replicate (cs.length + 3) true =
            true :: true :: (List.replicate cs.length true ++ [true]) := by
          have h1 : List.replicate (cs.length + 3) true =
              true :: true :: List.replicate (cs.length + 1) true := rfl
          rw [h1, List.replicate_succ']
        simp only [List.map_append, List.map_cons, List.map_nil,
          streamSnapshots_map_isLoading]
        rw [streamSnapshots_getLastD_isLoading]
        simp [hrep, hld, List.append_assoc]
  · intro b' s' h
    unfold submit
    rw [if_pos (Or.inr h)]

/-- C7 witness: the loading-flag profile of a concrete streamed submission,
and the absence of any mutation for a concrete submission started while
loading. -/
theorem C7_loading_interval_witness :
    (∃ k, 1 ≤ k ∧
      (submit { image := ImageOutcome.err, stream := StreamOutcome.ok ["a"] }
          { messages := [], input := "hi", isLoading := false }).trace.map AppState.isLoading =
        false :: false :: (List.replicate k true ++ [false])) ∧
    (∀ (b' : Backend) (s' : AppState), s'.isLoading = true →
      submit b' s' = { trace := [], imageRequests := [] }) :=
  C7_loading_interval { image := ImageOutcome.err, stream := StreamOutcome.ok ["a"] }
    { messages := [], input := "hi", isLoading := false } (by decide) rfl

/-- C1: a submission whose input is non-empty after trimming and does not
match either image-command prefix issues no image request, appends exactly
one user message carrying the input verbatim, then exactly one assistant
message created with empty text, and that assistant message's final text is
the concatenation of all streamed fragments in delivery order, with no
reordering or deduplication. -/
theorem C1_conversational_stream (b : Backend) (s : AppState) (cs : List String)
    (hne : jsTrim s.input ≠ "") (hld : s.isLoading = false)
    (h1 : jsStartsWith (jsToLowerCase s.input) imageCommand = false)
    (h2 : jsStartsWith (jsToLowerCase s.input) imageCommandAlt = false)
    (hb : b.stream = StreamOutcome.ok cs) :
    (submit b s).imageRequests = [] ∧
    (submit b s).trace.get? 0 =
      some { s with messages := s.messages ++ [{ text := s.input, sender := Sender.user }] } ∧
    (submit b s).trace.get? 3 =
      some { messages := s.messages ++
               [{ text := s.input, sender := Sender.user },
                { text := "", sender := Sender.ai }],
             input := "", isLoading := true } ∧
    finalState s (submit b s) =
      { messages := s.messages ++
          [{ text := s.input, sender := Sender.user },
           { text := joinChunks cs, sender := Sender.ai }],
        input := "", isLoading := false } := by
  have hg : ¬(jsTrim s.input = "" ∨ s.isLoading = true) := by simp [hne, hld]
  have hp : extractPrompt s.input = "" := by
    simp [extractPrompt, h1, h2]
  have hsub : submit b s =
      { trace :=
          [{ s with
              messages := s.messages ++ [{ text := s.input, sender := Sender.user }] },
           { s with
              messages := s.messages ++ [{ text := s.input, sender := Sender.user }],
              input := "" },
           { s with
              messages := s.messages ++ [{ text := s.input, sender := Sender.user }],
              input := "",
              isLoading := true },
           { s with
              messages := (s.messages ++ [{ text := s.input, sender := Sender.user }]) ++
                [{ text := "", sender := Sender.ai }],
              input := "",
              isLoading := true }] ++
          streamSnapshots
            { s with
                messages := (s.messages ++ [{ text := s.input, sender := Sender.user }]) ++
                  [{ text := "", sender := Sender.ai }],
                input := "",
                isLoading := true } "" cs ++
          [{ ((streamSnapshots
                { s with
                    messages := (s.messages ++ [{ text := s.input, sender := Sender.user }]) ++
                      [{ text := "", sender := Sender.ai }],
                    input := "",
                    isLoading := true } "" cs).getLastD
                { s with
                    messages := (s.messages ++ [{ text := s.input, sender := Sender.user }]) ++
                      [{ text := "", sender := Sender.ai }],
                    input := "",
                    isLoading := true }) with
              isLoading := false }],
        imageRequests := [] } := by
    simp only [submit]
    rw [if_neg hg, if_neg (by simp [hp]), hb]
  rw [hsub]
  refine ⟨rfl, rfl, by simp [List.append_assoc], ?_⟩
  simp only [finalState]
  rw [streamSnapshots_getLastD cs
    { s with
        messages := (s.messages ++ [{ text := s.input, sender := Sender.user }]) ++
          [{ text := "", sender := Sender.ai }],
        input := "",
        isLoading := true }
    (s.messages ++ [{ text := s.input, sender := Sender.user }])
    { text := "", sender := Sender.ai } "" rfl rfl]
  simp only [List.cons_append, List.nil_append, List.getLastD_cons, getLastD_append_singleton]
  simp [List.append_assoc]

/-- C1 witness: a concrete three-fragment conversational submission. -/
theorem C1_conversational_stream_witness :
    (submit { image := ImageOutcome.err, stream := StreamOutcome.ok ["Use", " 24000", " RPM."] }
        { messages := [], input := "What RPM?", isLoading := false }).imageRequests = [] ∧
    (submit { image := ImageOutcome.err, stream := StreamOutcome.ok ["Use", " 24000", " RPM."] }
        { messages := [], input := "What RPM?", isLoading := false }).trace.get? 0 =
      some { messages := [{ text := "What RPM?", sender := Sender.user }],
             input := "What RPM?", isLoading := false } ∧
    (submit { image := ImageOutcome.err, stream := StreamOutcome.ok ["Use", " 24000", " RPM."] }
        { messages := [], input := "What RPM?", isLoading := false }).trace.get? 3 =
      some { messages := [{ text := "What RPM?", sender := Sender.user },
                          { text := "", sender := Sender.ai }],
             input := "", isLoading := true } ∧
    finalState { messages := [], input := "What RPM?", isLoading := false }
      (submit { image := ImageOutcome.err, stream := StreamOutcome.ok ["Use", " 24000", " RPM."] }
        { messages := [], input := "What RPM?", isLoading := false }) =
      { messages := [{ text := "What RPM?", sender := Sender.user },
                     { text := "Use 24000 RPM.", sender := Sender.ai }],
        input := "", isLoading := false } := by
  have h := C1_conversational_stream
    { image := ImageOutcome.err, stream := StreamOutcome.ok ["Use", " 24000", " RPM."] }
    { messages := [], input := "What RPM?", isLoading := false }
    ["Use", " 24000", " RPM."] (by decide) rfl (by decide) (by decide) rfl
  exact ⟨h.1, h.2.1.trans (by decide), h.2.2.1.trans (by decide), h.2.2.2.trans (by decide)⟩

/-- C9: during streaming, the arrival of fragment `i` produces a state that
differs from the pre-stream state only in the text of the last transcript
message, which becomes the concatenation of the fragments received so far;
every earlier message, the last message's sender and image-URL fields, the
transcript length, the draft and the loading flag are all unchanged. -/
theorem C9_fragment_frame (cs : List String) :
    ∀ (s : AppState) (base : List Message) (m : Message) (acc : String) (i : Nat),
      s.messages = base ++ [m] → i < cs.length →
      (streamSnapshots s acc cs).get? i =
        some { s with
                messages := base ++ [{ m with text := acc ++ joinChunks (cs.take (i + 1)) }] } := by
  induction cs with
  | nil =>
    intro s base m acc i hs hi
    exact absurd hi (by simp)
  | cons c cs ih =>
    intro s base m acc i hs hi
    cases i with
    | zero =>
      simp only [streamSnapshots, List.get?, Option.some.injEq]
      rw [hs, setLastText_append]
      have hj : joinChunks ((c :: cs).take 1) = c ++ "" := rfl
      rw [hj, ← String.append_assoc, String.append_empty]
    | succ i =>
      have hstep : ({ s with messages := setLastText s.messages (acc ++ c) } : AppState).messages =
          base ++ [{ m with text := acc ++ c }] := by
        show setLastText s.messages (acc ++ c) = _
        rw [hs, setLastText_append]
      have h := ih { s with messages := setLastText s.messages (acc ++ c) } base
        { m with text := acc ++ c } (acc ++ c) i hstep (by simpa using hi)
      simp only [streamSnapshots, List.get?]
      rw [h]
      have hj : joinChunks ((c :: cs).take (i + 2)) = c ++ joinChunks (cs.take (i + 1)) := rfl
      rw [hj, ← String.append_assoc]

/-- C9 witness: the snapshot after the second fragment of a concrete
stream changes only the last message's text. -/
theorem C9_fragment_frame_witness :
    (streamSnapshots
        { messages := [{ text := "q", sender := Sender.user },
                       { text := "", sender := Sender.ai }],
          input := "", isLoading := true } "" ["He", "llo", "!"]).get? 1 =
      some { messages := [{ text := "q", sender := Sender.user },
                          { text := "Hello", sender := Sender.ai }],
             input := "", isLoading := true } := by
  have h := C9_fragment_frame ["He", "llo", "!"]
    { messages := [{ text := "q", sender := Sender.user },
                   { text := "", sender := Sender.ai }],
      input := "", isLoading := true }
    [{ text := "q", sender := Sender.user }]
    { text := "", sender := Sender.ai } "" 1 rfl (by decide)
  exact h.trans (by decide)

theorem jsStartsWith_toLower_iff (input cmd : String) :
    jsStartsWith (jsToLowerCase input) cmd = true ↔
      ∃ t, input.data.map Char.toLower = cmd.data ++ t := by
  unfold jsStartsWith jsToLowerCase
  rw [List.isPrefixOf_iff_prefix]
  constructor
  · rintro ⟨t, ht⟩
    exact ⟨t, ht.symm⟩
  · rintro ⟨t, ht⟩
    exact ⟨t, ht.symm⟩

theorem extract_of_split (input cmd : String) (p r : List Char)
    (hsplit : input.data = p ++ r) (hmap : p.map Char.toLower = cmd.data) :
    jsStartsWith (jsToLowerCase input) cmd = true ∧
    jsSubstringFrom input (jsLength cmd) = ⟨r⟩ := by
  have hlow : input.data.map Char.toLower = cmd.data ++ r.map Char.toLower := by
    rw [hsplit, List.map_append, hmap]
  refine ⟨(jsStartsWith_toLower_iff input cmd).mpr ⟨r.map Char.toLower, hlow⟩, ?_⟩
  have hlen : jsLength cmd = p.length := by
    have h := congrArg List.length hmap
    simpa [jsLength] using h.symm
  unfold jsSubstringFrom
  rw [hsplit, hlen, List.drop_left]

theorem not_startsWith_imageCommand_of_alt (input : String) (p r : List Char)
    (hsplit : input.data = p ++ r) (hmap : p.map Char.toLower = imageCommandAlt.data) :
    jsStartsWith (jsToLowerCase input) imageCommand = false := by
  cases hq : jsStartsWith (jsToLowerCase input) imageCommand with
  | false => rfl
  | true =>
    exfalso
    obtain ⟨t, ht⟩ := (jsStartsWith_toLower_iff input imageCommand).mp hq
    have halt : input.data.map Char.toLower = imageCommandAlt.data ++ r.map Char.toLower := by
      rw [hsplit, List.map_append, hmap]
    have e1 := congrArg (List.take 10) ht
    have e2 := congrArg (List.take 10) halt
    rw [List.take_append_of_le_length (by decide)] at e1
    rw [List.take_append_of_le_length (by decide)] at e2
    exact absurd (e1.symm.trans e2) (by decide)

theorem startsWith_head_toLower (input cmd : String) (c : Char) (rest : List Char)
    (hdata : input.data = c :: rest)
    (hlen : 1 ≤ cmd.data.length)
    (hq : jsStartsWith (jsToLowerCase input) cmd = true) :
    cmd.data.take 1 = [Char.toLower c] := by
  obtain ⟨t, ht⟩ := (jsStartsWith_toLower_iff input cmd).mp hq
  have e := congrArg (List.take 1) ht
  rw [List.take_append_of_le_length hlen, hdata] at e
  simpa using e.symm

theorem toLower_whitespace_ne_g (c : Char) (h : c.isWhitespace = true) :
    Char.toLower c ≠ 'g' := by
  have h4 : c = ' ' ∨ c = '\t' ∨ c = '\r' ∨ c = '\n' := by
    simp [Char.isWhitespace] at h
    tauto
  rcases h4 with h | h | h | h <;> subst h <;> decide

/-- C2: an input is classified as an image command exactly when its
lower-cased form starts with one of the two literal prefixes, i.e. when its
character sequence splits into a prefix that lower-cases to the command
literal followed by a remainder; the extracted prompt is that remainder of
the original, un-lowercased input, preserved verbatim; a leading whitespace
character prevents any match; and a non-matching input yields the empty
prompt (the conversational route). -/
theorem C2_image_command_classification (input : String) :
    (matchesImageCommand input = true ↔
      (∃ p r, input.data = p ++ r ∧ p.map Char.toLower = imageCommand.data) ∨
      (∃ p r, input.data = p ++ r ∧ p.map Char.toLower = imageCommandAlt.data)) ∧
    (∀ p r, input.data = p ++ r → p.map Char.toLower = imageCommand.data →
      extractPrompt input = ⟨r⟩) ∧
    (∀ p r, input.data = p ++ r → p.map Char.toLower = imageCommandAlt.data →
      extractPrompt input = ⟨r⟩) ∧
    (∀ c rest, c.isWhitespace = true → input.data = c :: rest →
      matchesImageCommand input = false) ∧
    (matchesImageCommand input = false → extractPrompt input = "") := by
  refine ⟨⟨?_, ?_⟩, ?_, ?_, ?_, ?_⟩
  · intro h
    rcases Bool.or_eq_true _ _ ▸ h with hq | hq
    · refine Or.inl ⟨input.data.take imageCommand.data.length,
        input.data.drop imageCommand.data.length,
        (List.take_append_drop _ _).symm, ?_⟩
      obtain ⟨t, ht⟩ := (jsStartsWith_toLower_iff input imageCommand).mp hq
      rw [List.map_take, ht, List.take_left]
    · refine Or.inr ⟨input.data.take imageCommandAlt.data.length,
        input.data.drop imageCommandAlt.data.length,
        (List.take_append_drop _ _).symm, ?_⟩
      obtain ⟨t, ht⟩ := (jsStartsWith_toLower_iff input imageCommandAlt).mp hq
      rw [List.map_take, ht, List.take_left]
  · intro h
    rcases h with ⟨p, r, h1, h2⟩ | ⟨p, r, h1, h2⟩
    · simp [matchesImageCommand, (extract_of_split input imageCommand p r h1 h2).1]
    · simp [matchesImageCommand, (extract_of_split input imageCommandAlt p r h1 h2).1]
  · intro p r h1 h2
    have hx := extract_of_split input imageCommand p r h1 h2
    simpa [extractPrompt, hx.1] using hx.2
  · intro p r h1 h2
    have hf := not_startsWith_imageCommand_of_alt input p r h1 h2
    have hx := extract_of_split input imageCommandAlt p r h1 h2
    simpa [extractPrompt, hf, hx.1] using hx.2
  · intro c rest hws hdata
    cases hm : matchesImageCommand input with
    | false => rfl
    | true =>
      exfalso
      rcases Bool.or_eq_true _ _ ▸ hm with hq | hq
      · have h1 := startsWith_head_toLower input imageCommand c rest hdata (by decide) hq
        have hg1 : imageCommand.data.take 1 = ['g'] := by decide
        exact toLower_whitespace_ne_g c hws (by simpa using h1.symm.trans hg1)
      · have h1 := startsWith_head_toLower input imageCommandAlt c rest hdata (by decide) hq
        have hg1 : imageCommandAlt.data.take 1 = ['g'] := by decide
        exact toLower_whitespace_ne_g c hws (by simpa using h1.symm.trans hg1)
  · intro h
    have h2 : jsStartsWith (jsToLowerCase input) imageCommand = false ∧
        jsStartsWith (jsToLowerCase input) imageCommandAlt = false := by
      simpa [matchesImageCommand] using h
    simp [extractPrompt, h2.1, h2.2]

/-- C2 witness: case-insensitive match with verbatim extraction on a
concrete mixed-case input, and no match for a concrete input with leading
whitespace before the prefix. -/
theorem C2_image_command_classification_witness :
    extractPrompt "Generate Image Of a CNC spindle housing" = "a CNC spindle housing" ∧
    matchesImageCommand " generate image of x" = false := by
  constructor
  · have h := (C2_image_command_classification
      "Generate Image Of a CNC spindle housing").2.1
      "Generate Image Of ".data "a CNC spindle housing".data (by decide) (by decide)
    exact h.trans (by decide)
  · exact (C2_image_command_classification " generate image of x").2.2.2.1
      ' ' "generate image of x".data (by decide) (by decide)

theorem dropWhile_append_singleton_ne_nil (p : Char → Bool) (c : Char) (hc : p c = false) :
    ∀ l : List Char, (l ++ [c]).dropWhile p ≠ [] := by
  intro l
  induction l with
  | nil => simp [List.dropWhile_cons, hc]
  | cons a l ih =>
    rw [List.cons_append, List.dropWhile_cons]
    by_cases hpa : p a = true
    · simpa [hpa] using ih
    · simp [hpa]

theorem jsTrim_ne_empty_of_head (s : String) (c : Char) (rest : List Char)
    (hdata : s.data = c :: rest) (hc : c.isWhitespace = false) :
    jsTrim s ≠ "" := by
  intro h
  have hd := congrArg String.data h
  unfold jsTrim at hd
  rw [hdata] at hd
  simp only [List.dropWhile_cons, hc, Bool.false_eq_true, if_false] at hd
  rw [List.reverse_cons] at hd
  have hne := dropWhile_append_singleton_ne_nil Char.isWhitespace c hc rest.reverse
  simp only [Bool.false_eq_true, if_false, List.reverse_eq_nil_iff] at hd
  exact hne hd

theorem submit_stream_ok_final (b : Backend) (s : AppState) (cs : List String)
    (hg : ¬(jsTrim s.input = "" ∨ s.isLoading = true))
    (hp : extractPrompt s.input = "")
    (hb : b.stream = StreamOutcome.ok cs) :
    finalState s (submit b s) =
      { messages := s.messages ++
          [{ text := s.input, sender := Sender.user },
           { text := joinChunks cs, sender := Sender.ai }],
        input := "", isLoading := false } := by
  have hsub : submit b s =
      { trace :=
          [{ s with
              messages := s.messages ++ [{ text := s.input, sender := Sender.user }] },
           { s with
              messages := s.messages ++ [{ text := s.input, sender := Sender.user }],
              input := "" },
           { s with
              messages := s.messages ++ [{ text := s.input, sender := Sender.user }],
              input := "",
              isLoading := true },
           { s with
              messages := (s.messages ++ [{ text := s.input, sender := Sender.user }]) ++
                [{ text := "", sender := Sender.ai }],
              input := "",
              isLoading := true }] ++
          streamSnapshots
            { s with
                messages := (s.messages ++ [{ text := s.input, sender := Sender.user }]) ++
                  [{ text := "", sender := Sender.ai }],
                input := "",
                isLoading := true } "" cs ++
          [{ ((streamSnapshots
                { s with
                    messages := (s.messages ++ [{ text := s.input, sender := Sender.user }]) ++
                      [{ text := "", sender := Sender.ai }],
                    input := "",
                    isLoading := true } "" cs).getLastD
                { s with
                    messages := (s.messages ++ [{ text := s.input, sender := Sender.user }]) ++
                      [{ text := "", sender := Sender.ai }],
                    input := "",
                    isLoading := true }) with
              isLoading := false }],
        imageRequests := [] } := by
    simp only [submit]
    rw [if_neg hg, if_neg (by simp [hp]), hb]
  rw [hsub]
  simp only [finalState]
  rw [streamSnapshots_getLastD cs
    { s with
        messages := (s.messages ++ [{ text := s.input, sender := Sender.user }]) ++
          [{ text := "", sender := Sender.ai }],
        input := "",
        isLoading := true }
    (s.messages ++ [{ text := s.input, sender := Sender.user }])
    { text := "", sender := Sender.ai } "" rfl rfl]
  simp only [List.cons_append, List.nil_append, List.getLastD_cons, getLastD_append_singleton]
  simp [List.append_assoc]

/-- C8: an input whose lower-cased form is exactly an image-command prefix
with nothing after it yields the empty extracted prompt and is routed to
the conversational streaming path, not the image path: no image request is
issued on any backend behaviour, and under a successful fragment stream
the transcript receives the placeholder filled from the stream. -/
theorem C8_bare_prefix_goes_conversational (s : AppState)
    (hx : s.input.data.map Char.toLower = imageCommand.data ∨
          s.input.data.map Char.toLower = imageCommandAlt.data)
    (hld : s.isLoading = false) :
    extractPrompt s.input = "" ∧
    (∀ b : Backend, (submit b s).imageRequests = []) ∧
    (∀ (b : Backend) (cs : List String), b.stream = StreamOutcome.ok cs →
      finalState s (submit b s) =
        { messages := s.messages ++
            [{ text := s.input, sender := Sender.user },
             { text := joinChunks cs, sender := Sender.ai }],
          input := "", isLoading := false }) := by
  obtain ⟨c, rest, hdata, hglow⟩ :
      ∃ c rest, s.input.data = c :: rest ∧ Char.toLower c = 'g' := by
    rcases hx with hx1 | hx1
    · cases hdata : s.input.data with
      | nil => rw [hdata] at hx1; exact absurd hx1 (by decide)
      | cons c rest =>
        refine ⟨c, rest, rfl, ?_⟩
        rw [hdata] at hx1
        have e := congrArg (List.take 1) hx1
        have e2 : imageCommand.data.take 1 = ['g'] := by decide
        rw [e2] at e
        simpa using e
    · cases hdata : s.input.data with
      | nil => rw [hdata] at hx1; exact absurd hx1 (by decide)
      | cons c rest =>
        refine ⟨c, rest, rfl, ?_⟩
        rw [hdata] at hx1
        have e := congrArg (List.take 1) hx1
        have e2 : imageCommandAlt.data.take 1 = ['g'] := by decide
        rw [e2] at e
        simpa using e
  have hwsf : c.isWhitespace = false := by
    cases hw : c.isWhitespace with
    | false => rfl
    | true => exact absurd hglow (toLower_whitespace_ne_g c hw)
  have hne : jsTrim s.input ≠ "" := jsTrim_ne_empty_of_head s.input c rest hdata hwsf
  have hg : ¬(jsTrim s.input = "" ∨ s.isLoading = true) := by simp [hne, hld]
  have hep : extractPrompt s.input = "" := by
    rcases hx with hx1 | hx1
    · have h1 : jsStartsWith (jsToLowerCase s.input) imageCommand = true :=
        (jsStartsWith_toLower_iff s.input imageCommand).mpr ⟨[], by rw [hx1, List.append_nil]⟩
      have hlen : s.input.data.length = jsLength imageCommand := by
        have h := congrArg List.length hx1
        simpa [jsLength] using h
      have hdrop : s.input.data.drop (jsLength imageCommand) = [] :=
        List.drop_eq_nil_of_le (le_of_eq hlen)
      simp [extractPrompt, h1, jsSubstringFrom, hdrop]
    · have h0 : jsStartsWith (jsToLowerCase s.input) imageCommand = false := by
        have hrw : jsStartsWith (jsToLowerCase s.input) imageCommand =
            List.isPrefixOf imageCommand.data (s.input.data.map Char.toLower) := rfl
        rw [hrw, hx1]
        decide
      have h1 : jsStartsWith (jsToLowerCase s.input) imageCommandAlt = true :=
        (jsStartsWith_toLower_iff s.input imageCommandAlt).mpr ⟨[], by rw [hx1, List.append_nil]⟩
      have hlen : s.input.data.length = jsLength imageCommandAlt := by
        have h := congrArg List.length hx1
        simpa [jsLength] using h
      have hdrop : s.input.data.drop (jsLength imageCommandAlt) = [] :=
        List.drop_eq_nil_of_le (le_of_eq hlen)
      simp [extractPrompt, h0, h1, jsSubstringFrom, hdrop]
  refine ⟨hep, ?_, ?_⟩
  · intro b
    simp only [submit]
    rw [if_neg hg, if_neg (by simp [hep])]
    cases hb : b.stream <;> rfl
  · intro b cs hb
    exact submit_stream_ok_final b s cs hg hep hb

/-- C8 witness: the bare prefix input `"generate image of "` routes to the
streaming path. -/
theorem C8_bare_prefix_goes_conversational_witness :
    extractPrompt "generate image of " = "" ∧
    (submit { image := ImageOutcome.ok "B", stream := StreamOutcome.ok ["hi"] }
        { messages := [], input := "generate image of ", isLoading := false }).imageRequests = [] ∧
    finalState { messages := [], input := "generate image of ", isLoading := false }
      (submit { image := ImageOutcome.ok "B", stream := StreamOutcome.ok ["hi"] }
        { messages := [], input := "generate image of ", isLoading := false }) =
      { messages := [{ text := "generate image of ", sender := Sender.user },
                     { text := "hi", sender := Sender.ai }],
        input := "", isLoading := false } := by
  have h := C8_bare_prefix_goes_conversational
    { messages := [], input := "generate image of ", isLoading := false }
    (Or.inl (by decide)) rfl
  exact ⟨h.1, h.2.1 _,
    (h.2.2 { image := ImageOutcome.ok "B", stream := StreamOutcome.ok ["hi"] } ["hi"] rfl).trans
      (by decide)⟩
